import Mathlib

/-!
Shallow embedding of the SisyphosDBX sync controller
(src/sisyphosdbx/main.py) and verification of its specification.

The controller composes a remote client, a background change monitor and a
persisted configuration store.  Python state is passed explicitly: every
operation is a function from a state to either a normal result together with
the successor state, or a raised exception together with the state at the
moment of the raise (Python does not roll state back on unwind).  Calls to
collaborators are additionally recorded in an event trace so that claims
about which remote calls happen, and in which order, can be stated.
-/

/-- Exceptions that the modelled code can raise: a transport failure from the
requests library (caught by the connectivity guard) and the error raised by
os.makedirs when the target already exists. -/
inductive Exn where
  | requestExn
  | fileExistsErr
deriving DecidableEq, Repr

/-- Observable calls made by the controller.  downloadTree none is the full
download client.get_remote_dropbox(); downloadTree (some p) is the download of
one folder.  excludeCall and includeCall mark invocations of the decorated
exclude_folder and include_folder methods. -/
inductive Event where
  | listFolder
  | downloadTree (path : Option String)
  | setRev (path : String) (v : Option String)
  | rmtree (path : String)
  | makedirs (path : String)
  | move (src dst : String)
  | printMsg (msg : String)
  | excludeCall (path : String)
  | includeCall (path : String)
deriving DecidableEq, Repr

/-- Modelled from the spec: the external ChangeMonitor exposes a running
signal and a connected signal; start and stop toggle the former.  The
stopped_by_user flag is the attribute set by the controller in main.py. -/
structure MonitorState where
  running : Bool
  connected : Bool
  stopped_by_user : Bool
deriving DecidableEq, Repr

/-- Modelled from the spec: the persisted configuration keys used by the core,
sections main (path, excluded_folders) and internal (cursor, lastsync).
lastsync none models the Python value None; time.time() is modelled as a
natural number supplied by the environment. -/
structure Conf where
  path : String
  excluded_folders : List String
  cursor : String
  lastsync : Option Nat
deriving DecidableEq, Repr

/-- Modelled from the spec: the mutable attributes of the external
SisyphosClient that main.py reads and writes: the excluded-folder copy, the
local sync-root path, the revision-file path and the per-path revision store
(a key-value map, modelled as an association list). -/
structure ClientState where
  excluded_folders : List String
  dropbox_path : String
  rev_file : String
  revs : List (String × Option String)
deriving DecidableEq, Repr

/-- The local filesystem, as far as main.py observes it: the set of existing
directory paths and the set of existing file paths. -/
structure FS where
  dirs : List String
  files : List String
deriving DecidableEq, Repr

/-- The complete program state: monitor signals, persisted configuration,
client attributes, filesystem, and the trace of emitted events. -/
structure St where
  monitor : MonitorState
  conf : Conf
  client : ClientState
  fs : FS
  trace : List Event
deriving DecidableEq, Repr

/-- Modelled from the spec: one entry of the top-level remote listing. -/
structure FolderEntry where
  path_display : String
  path_lower : String
  isFolder : Bool
deriving DecidableEq, Repr

/-- The environment: everything outside the program state that determines a
run.  entries pairs each listing entry with the yes/no answer the user gives
to the exclusion prompt; promptedPath is the path the user supplies to the
interactive directory prompt; the Fails fields say which remote calls raise a
transport exception; now is the value of time.time(). -/
structure Env where
  promptedPath : String
  now : Nat
  listFails : Bool
  entries : List (FolderEntry × Bool)
  downloadFails : List String
  downloadAllFails : Bool
deriving DecidableEq, Repr

/-- The values the decorated methods can return: Python None and Python
False.  Every wrapped body in main.py returns None; the connectivity guard
returns False on failure. -/
inductive Res where
  | noneV
  | falseV
deriving DecidableEq, Repr

/-- Python truthiness of the possible results: both None and False are falsy. -/
def truthy : Res → Bool
  | .noneV => false
  | .falseV => false

/-- Lower-casing of a path, as str.lower in Python: character-wise, modelled
structurally so that it evaluates by kernel reduction (the paths involved are
ASCII). -/
def pyLower (s : String) : String := String.mk (s.data.map Char.toLower)

/-- Append an event to the trace. -/
def pushEvent (s : St) (e : Event) : St :=
  { s with trace := s.trace ++ [e] }

/-- os.path.exists: the path is an existing directory or an existing file. -/
def pexists (s : St) (p : String) : Prop :=
  p ∈ s.fs.dirs ∨ p ∈ s.fs.files

instance (s : St) (p : String) : Decidable (pexists s p) :=
  inferInstanceAs (Decidable (p ∈ s.fs.dirs ∨ p ∈ s.fs.files))

/-- A path q lies inside the subtree rooted at root (string prefix on the
character lists). -/
def strUnder (root q : String) : Bool :=
  root.data.isPrefixOf q.data

/-- shutil.rmtree: remove the whole subtree rooted at p. -/
def rmtreeFS (fs : FS) (p : String) : FS :=
  { dirs := fs.dirs.filter (fun q => !(strUnder p q)),
    files := fs.files.filter (fun q => !(strUnder p q)) }

/-- shutil.move of a directory tree: every path under src is renamed to the
corresponding path under dst. -/
def moveFS (fs : FS) (src dst : String) : FS :=
  { dirs := fs.dirs.map (fun q => if strUnder src q then dst ++ q.drop src.length else q),
    files := fs.files.map (fun q => if strUnder src q then dst ++ q.drop src.length else q) }

/-- Python dict update for the revision store: replace the binding in place if
the key is present, append it otherwise. -/
def setAssoc : List (String × Option String) → String → Option String → List (String × Option String)
  | [], k, v => [(k, v)]
  | (a, b) :: t, k, v => if a = k then (k, v) :: t else (a, b) :: setAssoc t k v

/-- SisyphosDBX.pause_sync: set stopped_by_user and stop the monitor
(Modelled from the spec: Monitor.stop clears the running signal). -/
def pause_sync (s : St) : St :=
  { s with monitor := { s.monitor with stopped_by_user := true, running := false } }

/-- SisyphosDBX.resume_sync: clear stopped_by_user and start the monitor
(Modelled from the spec: Monitor.start sets the running signal). -/
def resume_sync (s : St) : St :=
  { s with monitor := { s.monitor with stopped_by_user := false, running := true } }

/-- The syncing property: the running signal of the monitor. -/
def syncing (s : St) : Bool := s.monitor.running

/-- The connected property: the connected signal of the monitor. -/
def connected (s : St) : Bool := s.monitor.connected

/-- The connectivity error message printed by the if_connected decorator,
exactly as concatenated in the source. -/
def connErrMsg : String :=
  "Cannot connect to Dropbox servers. Please  check" ++
  "your internet connection and try again later."

/-- The with_sync_paused decorator: if the monitor is running, pause it, run
the body, and resume only on normal return.  The source has no finally
clause, so a raised exception propagates without resuming. -/
def with_sync_paused (f : St → Except (Exn × St) (Res × St)) (s : St) :
    Except (Exn × St) (Res × St) :=
  let resume := syncing s
  let s1 := if resume then pause_sync s else s
  match f s1 with
  | .ok (ret, s2) => .ok (ret, if resume then resume_sync s2 else s2)
  | .error es => .error es

/-- The if_connected decorator: print the error message and return False when
the connected signal is off; otherwise run the body, converting a raised
transport exception into the printed message and a False result.  Other
exceptions propagate. -/
def if_connected (f : St → Except (Exn × St) (Res × St)) (s : St) :
    Except (Exn × St) (Res × St) :=
  if connected s = false then
    .ok (.falseV, pushEvent s (.printMsg connErrMsg))
  else
    match f s with
    | .ok rs => .ok rs
    | .error (.requestExn, s2) => .ok (.falseV, pushEvent s2 (.printMsg connErrMsg))
    | .error es => .error es

/-- Modelled from the spec: client.get_remote_dropbox downloads the full tree
(path none) or one folder (path some); it may raise a transport exception, as
dictated by the environment. -/
def client_get_remote_dropbox (env : Env) (p : Option String) (s : St) :
    Except (Exn × St) (Unit × St) :=
  let s1 := pushEvent s (.downloadTree p)
  let fails : Bool :=
    match p with
    | none => env.downloadAllFails
    | some q => decide (q ∈ env.downloadFails)
  if fails then .error (.requestExn, s1) else .ok ((), s1)

/-- Modelled from the spec: client.list_folder lists the top-level remote
entries (already flattened, each paired with the yes/no answer the user will
give); it may raise a transport exception. -/
def client_list_folder (env : Env) (s : St) :
    Except (Exn × St) (List (FolderEntry × Bool) × St) :=
  let s1 := pushEvent s .listFolder
  if env.listFails then .error (.requestExn, s1) else .ok (env.entries, s1)

/-- Modelled from the spec: client.set_local_rev stores a per-path revision
marker (none clears it). -/
def client_set_local_rev (p : String) (v : Option String) (s : St) : St :=
  pushEvent { s with client := { s.client with revs := setAssoc s.client.revs p v } }
    (.setRev p v)

/-- Modelled from the spec: client.to_local_path joins the local sync root
with a remote path (remote paths begin with a slash). -/
def to_local_path (s : St) (p : String) : String :=
  s.client.dropbox_path ++ p

/-- os.path.normpath; the excluded-folder paths handled here are already
normalized, on which normpath is the identity. -/
def normpath (p : String) : String := p

/-- The body of SisyphosDBX.get_remote_dropbox: delegate the full download to
the client; the body returns None. -/
def get_remote_dropbox_body (env : Env) (s : St) : Except (Exn × St) (Res × St) :=
  match client_get_remote_dropbox env none s with
  | .ok (_, s1) => .ok (.noneV, s1)
  | .error es => .error es

/-- SisyphosDBX.get_remote_dropbox, decorated with if_connected. -/
def get_remote_dropbox (env : Env) (s : St) : Except (Exn × St) (Res × St) :=
  if_connected (get_remote_dropbox_body env) s

/-- The two source lines that add a path to the excluded list only when it is
not already present. -/
def addExcluded (pl : String) (l : List String) : List String :=
  if pl ∈ l then l else l ++ [pl]

/-- The state transformation of the exclude_folder body: lower-case the path,
add it to the excluded list if absent, store the list in the client and the
configuration, remove the local subtree when it is a directory, and clear the
per-path revision marker.  The body raises nothing. -/
def exclude_folder_state (dbx_path : String) (s : St) : St :=
  let p := pyLower dbx_path
  let folders1 := addExcluded p s.conf.excluded_folders
  let s1 := { s with client := { s.client with excluded_folders := folders1 },
                     conf := { s.conf with excluded_folders := folders1 } }
  let lp := to_local_path s1 p
  let s2 := if lp ∈ s1.fs.dirs
            then pushEvent { s1 with fs := rmtreeFS s1.fs lp } (.rmtree lp)
            else s1
  client_set_local_rev p none s2

/-- The body of SisyphosDBX.exclude_folder; it always returns None. -/
def exclude_folder_body (dbx_path : String) (s : St) : Except (Exn × St) (Res × St) :=
  .ok (.noneV, exclude_folder_state dbx_path s)

/-- SisyphosDBX.exclude_folder, decorated with with_sync_paused; the
excludeCall event marks the invocation. -/
def exclude_folder (dbx_path : String) (s : St) : Except (Exn × St) (Res × St) :=
  with_sync_paused (exclude_folder_body dbx_path) (pushEvent s (.excludeCall dbx_path))

/-- The body of SisyphosDBX.include_folder: lower-case the path; if it is not
in the excluded list, log and return (a no-op); otherwise remove it from the
list, store the new list in client and configuration, and download the folder
(which may raise a transport exception). -/
def include_folder_body (env : Env) (dbx_path : String) (s : St) :
    Except (Exn × St) (Res × St) :=
  let p := pyLower dbx_path
  let folders := s.conf.excluded_folders
  if p ∈ folders then
    let new_folders := folders.filter (fun x => normpath x != p)
    let s1 := { s with client := { s.client with excluded_folders := new_folders },
                       conf := { s.conf with excluded_folders := new_folders } }
    match client_get_remote_dropbox env (some p) s1 with
    | .ok (_, s2) => .ok (.noneV, s2)
    | .error es => .error es
  else
    .ok (.noneV, s)

/-- SisyphosDBX.include_folder: the source stacks the decorators with
if_connected outermost and with_sync_paused innermost. -/
def include_folder (env : Env) (dbx_path : String) (s : St) :
    Except (Exn × St) (Res × St) :=
  if_connected (with_sync_paused (include_folder_body env dbx_path))
    (pushEvent s (.includeCall dbx_path))

/-- The first loop of select_excluded_folders: call the decorated
exclude_folder on every newly chosen excluded folder, in order. -/
def applyExclusions : List String → St → Except (Exn × St) St
  | [], s => .ok s
  | p :: rest, s =>
    match exclude_folder p s with
    | .ok (_, s1) => applyExclusions rest s1
    | .error es => .error es

/-- The second loop of select_excluded_folders: call the decorated
include_folder on every folder removed from the excluded set, in order. -/
def applyInclusions (env : Env) : List String → St → Except (Exn × St) St
  | [], s => .ok s
  | p :: rest, s =>
    match include_folder env p s with
    | .ok (_, s1) => applyInclusions env rest s1
    | .error es => .error es

/-- The selection loop: for every folder entry of the listing, the lower-case
path is collected when the user answers yes to the exclusion prompt. -/
def chosenExcluded (entries : List (FolderEntry × Bool)) : List String :=
  entries.filterMap (fun eb => if eb.1.isFolder && eb.2 then some eb.1.path_lower else none)

/-- The body of SisyphosDBX.select_excluded_folders: list the top-level
folders, collect the newly chosen excluded set, compute the removed set, and
(when this is not the first sync) apply exclusions then inclusions; finally
store the new set in client and configuration.  The Python body has no return
statement, so it returns None. -/
def select_excluded_folders_body (firstSync : Bool) (env : Env) (s : St) :
    Except (Exn × St) (Res × St) :=
  let old_folders := s.conf.excluded_folders
  match client_list_folder env s with
  | .error es => .error es
  | .ok (entries, s1) =>
    let new_folders := chosenExcluded entries
    let removed_folders := old_folders.filter (fun x => !(decide (x ∈ new_folders)))
    let step : Except (Exn × St) St :=
      if firstSync then .ok s1
      else
        match applyExclusions new_folders s1 with
        | .error es => .error es
        | .ok s2 => applyInclusions env removed_folders s2
    match step with
    | .error es => .error es
    | .ok s3 =>
      .ok (.noneV,
        { s3 with client := { s3.client with excluded_folders := new_folders },
                  conf := { s3.conf with excluded_folders := new_folders } })

/-- SisyphosDBX.select_excluded_folders, decorated with if_connected.  The
firstSync argument is the FIRST_SYNC class attribute, computed once at
module load from the initial state. -/
def select_excluded_folders (firstSync : Bool) (env : Env) (s : St) :
    Except (Exn × St) (Res × St) :=
  if_connected (select_excluded_folders_body firstSync env) s

/-- The move-or-create block of set_dropbox_directory: when the old path is a
directory, remove anything at the destination and move the tree there; when
it is not, os.makedirs creates the new directory and raises when something
already exists at that path. -/
def moveOrCreate (old_path new_path : String) (s : St) : Except (Exn × St) St :=
  if old_path ∈ s.fs.dirs then
    let s1 := if pexists s new_path
              then pushEvent { s with fs := rmtreeFS s.fs new_path } (.rmtree new_path)
              else s
    .ok (pushEvent { s1 with fs := moveFS s1.fs old_path new_path } (.move old_path new_path))
  else if pexists s new_path then
    .error (.fileExistsErr, s)
  else
    .ok (pushEvent { s with fs := { s.fs with dirs := new_path :: s.fs.dirs } }
      (.makedirs new_path))

/-- The body of SisyphosDBX.set_dropbox_directory: read the old path from the
configuration, take the given new path or prompt for one, return early when
both exist and are the same file, otherwise move or create, then update the
client paths and the configuration. -/
def set_dropbox_directory_body (env : Env) (newPathOpt : Option String) (s : St) :
    Except (Exn × St) (Res × St) :=
  let old_path := s.conf.path
  let new_path := newPathOpt.getD env.promptedPath
  if pexists s old_path ∧ pexists s new_path ∧ old_path = new_path then
    .ok (.noneV, s)
  else
    match moveOrCreate old_path new_path s with
    | .error es => .error es
    | .ok s2 =>
      .ok (.noneV,
        { s2 with client := { s2.client with dropbox_path := new_path,
                                             rev_file := new_path ++ "/.dropbox" },
                  conf := { s2.conf with path := new_path } })

/-- SisyphosDBX.set_dropbox_directory, decorated with with_sync_paused. -/
def set_dropbox_directory (env : Env) (newPathOpt : Option String) (s : St) :
    Except (Exn × St) (Res × St) :=
  with_sync_paused (set_dropbox_directory_body env newPathOpt) s

/-- Python truthiness of the lastsync configuration value: None and 0 are
falsy. -/
def lastsyncFalsy : Option Nat → Bool
  | none => true
  | some t => t == 0

/-- The FIRST_SYNC class attribute: no last sync recorded, or empty cursor,
or the configured local directory does not exist. -/
def first_sync_flag (s : St) : Bool :=
  lastsyncFalsy s.conf.lastsync || (s.conf.cursor == "") ||
    !(decide (s.conf.path ∈ s.fs.dirs))

/-- SisyphosDBX.__init__: create the client and a fresh monitor (running
signal off, stopped_by_user set to hold off syncing); when FIRST_SYNC holds,
select the directory, select the excluded folders, reset the cursor to the
empty string and lastsync to None, run the full download, and set lastsync to
the current time only if the result is truthy; finally resume syncing when
run is set. -/
def sdbx_init (env : Env) (run : Bool) (s0 : St) : Except (Exn × St) St :=
  let firstSync := first_sync_flag s0
  let s := { s0 with monitor := { running := false,
                                  connected := s0.monitor.connected,
                                  stopped_by_user := true } }
  if firstSync then
    match set_dropbox_directory env none s with
    | .error es => .error es
    | .ok (_, s1) =>
      match select_excluded_folders firstSync env s1 with
      | .error es => .error es
      | .ok (_, s2) =>
        let s3 := { s2 with conf := { s2.conf with cursor := "", lastsync := none } }
        match get_remote_dropbox env s3 with
        | .error es => .error es
        | .ok (success, s4) =>
          let s5 := if truthy success
                    then { s4 with conf := { s4.conf with lastsync := some env.now } }
                    else s4
          .ok (if run then resume_sync s5 else s5)
  else
    .ok (if run then resume_sync s else s)

/-- Projection: the successor state of a normal return. -/
def okState : Except (Exn × St) (Res × St) → Option St
  | .ok (_, s) => some s
  | .error _ => none

/-- Projection: the returned value of a normal return. -/
def okRes : Except (Exn × St) (Res × St) → Option Res
  | .ok (r, _) => some r
  | .error _ => none

/-- Projection: the state carried by a raised exception. -/
def errState : Except (Exn × St) (Res × St) → Option St
  | .error (_, s) => some s
  | .ok _ => none

/-- Projection: the raised exception. -/
def errExnOf : Except (Exn × St) (Res × St) → Option Exn
  | .error (e, _) => some e
  | .ok _ => none

/-- Projection: the running signal after a normal return. -/
def okRunning (x : Except (Exn × St) (Res × St)) : Option Bool :=
  (okState x).map (fun s => s.monitor.running)

/-- Projection: the persisted excluded-folder list after a normal return. -/
def okConfExcluded (x : Except (Exn × St) (Res × St)) : Option (List String) :=
  (okState x).map (fun s => s.conf.excluded_folders)

/-- Projection: the client excluded-folder copy after a normal return. -/
def okClientExcluded (x : Except (Exn × St) (Res × St)) : Option (List String) :=
  (okState x).map (fun s => s.client.excluded_folders)

/-- Projection: the persisted cursor after a normal return. -/
def okCursor (x : Except (Exn × St) (Res × St)) : Option String :=
  (okState x).map (fun s => s.conf.cursor)

/-- Projection: the event trace after a normal return. -/
def okTrace (x : Except (Exn × St) (Res × St)) : Option (List Event) :=
  (okState x).map (fun s => s.trace)

/-- Projection: the final state of a constructor run. -/
def initStateOf : Except (Exn × St) St → Option St
  | .ok s => some s
  | .error _ => none

/-- The number of download calls in a trace. -/
def downloadCalls (t : List Event) : Nat :=
  t.countP (fun e => match e with | .downloadTree _ => true | _ => false)

/-- The number of RemoteClient calls in a trace: listings, downloads and
revision-marker writes. -/
def clientCalls (t : List Event) : Nat :=
  t.countP (fun e => match e with
    | .downloadTree _ => true
    | .listFolder => true
    | .setRev _ _ => true
    | _ => false)

/-- An environment in which every remote call succeeds and the user supplies
the path /p when prompted. -/
def envNeutral : Env :=
  { promptedPath := "/p", now := 0, listFails := false, entries := [],
    downloadFails := [], downloadAllFails := false }

/-- A running, connected state whose configured directory /old does not exist
while a file already sits at /new: the relocation-conflict scenario. -/
def stC2 : St :=
  { monitor := { running := true, connected := true, stopped_by_user := false },
    conf := { path := "/old", excluded_folders := [], cursor := "c", lastsync := some 5 },
    client := { excluded_folders := [], dropbox_path := "/old", rev_file := "/old/.dropbox",
                revs := [] },
    fs := { dirs := [], files := ["/new"] }, trace := [] }

/-- A disconnected state (connected signal off). -/
def stOff : St :=
  { monitor := { running := false, connected := false, stopped_by_user := false },
    conf := { path := "/db", excluded_folders := [], cursor := "c", lastsync := some 5 },
    client := { excluded_folders := [], dropbox_path := "/db", rev_file := "/db/.dropbox",
                revs := [] },
    fs := { dirs := ["/db"], files := [] }, trace := [] }

/-- A running, connected steady state in which /y is the only excluded
folder. -/
def s3c : St :=
  { monitor := { running := true, connected := true, stopped_by_user := false },
    conf := { path := "/db", excluded_folders := ["/y"], cursor := "cc", lastsync := some 5 },
    client := { excluded_folders := ["/y"], dropbox_path := "/db", rev_file := "/db/.dropbox",
                revs := [] },
    fs := { dirs := ["/db"], files := [] }, trace := [] }

/-- An environment in which downloading the folder /y raises a transport
exception. -/
def env3 : Env :=
  { promptedPath := "", now := 0, listFails := false, entries := [],
    downloadFails := ["/y"], downloadAllFails := false }

/-- A bootstrap starting state: no last sync recorded, the old directory /old
exists and is the configured path. -/
def s0Init : St :=
  { monitor := { running := false, connected := true, stopped_by_user := false },
    conf := { path := "/old", excluded_folders := [], cursor := "c0", lastsync := none },
    client := { excluded_folders := [], dropbox_path := "/old", rev_file := "/old/.dropbox",
                revs := [] },
    fs := { dirs := ["/old"], files := [] }, trace := [] }

/-- A bootstrap environment: the user picks /new as directory, answers yes to
excluding the single listed folder /a, and every remote call succeeds. -/
def envInit : Env :=
  { promptedPath := "/new", now := 99, listFails := false,
    entries := [({ path_display := "/A", path_lower := "/a", isFolder := true }, true)],
    downloadFails := [], downloadAllFails := false }

/-- The selection-diff environment: the listing has the three top-level
folders /x, /y, /z and the user answers exclude for /x and /z, include
for /y. -/
def env5 : Env :=
  { promptedPath := "", now := 0, listFails := false,
    entries := [({ path_display := "/X", path_lower := "/x", isFolder := true }, true),
                ({ path_display := "/Y", path_lower := "/y", isFolder := true }, false),
                ({ path_display := "/Z", path_lower := "/z", isFolder := true }, true)],
    downloadFails := [], downloadAllFails := false }

/-- The selection-diff starting state, parameterized over the running signal:
the persisted excluded set is the old set containing /x and /y, the local
subtree of /z exists and the local subtree of /x does not (consistent with /x
being already excluded). -/
def s5 (b : Bool) : St :=
  { monitor := { running := b, connected := true, stopped_by_user := !b },
    conf := { path := "/db", excluded_folders := ["/x", "/y"], cursor := "cc",
              lastsync := some 7 },
    client := { excluded_folders := ["/x", "/y"], dropbox_path := "/db",
                rev_file := "/db/.dropbox", revs := [] },
    fs := { dirs := ["/db", "/db/z"], files := [] }, trace := [] }

/-! ### Helper lemmas -/

@[simp]
theorem pushEvent_monitor (s : St) (e : Event) : (pushEvent s e).monitor = s.monitor := rfl

@[simp]
theorem pushEvent_conf (s : St) (e : Event) : (pushEvent s e).conf = s.conf := rfl

@[simp]
theorem pushEvent_client (s : St) (e : Event) : (pushEvent s e).client = s.client := rfl

@[simp]
theorem pushEvent_fs (s : St) (e : Event) : (pushEvent s e).fs = s.fs := rfl

@[simp]
theorem pushEvent_trace (s : St) (e : Event) : (pushEvent s e).trace = s.trace ++ [e] := rfl

@[simp]
theorem pause_sync_conf (s : St) : (pause_sync s).conf = s.conf := rfl

@[simp]
theorem pause_sync_client (s : St) : (pause_sync s).client = s.client := rfl

@[simp]
theorem pause_sync_fs (s : St) : (pause_sync s).fs = s.fs := rfl

@[simp]
theorem pause_sync_trace (s : St) : (pause_sync s).trace = s.trace := rfl

@[simp]
theorem pause_sync_running (s : St) : (pause_sync s).monitor.running = false := rfl

@[simp]
theorem pause_sync_connected (s : St) : (pause_sync s).monitor.connected = s.monitor.connected := rfl

@[simp]
theorem resume_sync_conf (s : St) : (resume_sync s).conf = s.conf := rfl

@[simp]
theorem resume_sync_client (s : St) : (resume_sync s).client = s.client := rfl

@[simp]
theorem resume_sync_fs (s : St) : (resume_sync s).fs = s.fs := rfl

@[simp]
theorem resume_sync_trace (s : St) : (resume_sync s).trace = s.trace := rfl

@[simp]
theorem resume_sync_running (s : St) : (resume_sync s).monitor.running = true := rfl

@[simp]
theorem resume_sync_connected (s : St) : (resume_sync s).monitor.connected = s.monitor.connected := rfl

/-- Adding an already present path leaves the excluded list unchanged. -/
theorem addExcluded_of_mem {pl : String} {l : List String} (h : pl ∈ l) :
    addExcluded pl l = l := by
  unfold addExcluded
  exact if_pos h

/-- The added path is a member of the result. -/
theorem mem_addExcluded_self (pl : String) (l : List String) : pl ∈ addExcluded pl l := by
  unfold addExcluded
  split
  · assumption
  · exact List.mem_append_right _ (List.mem_singleton.mpr rfl)

/-- Adding the same path twice is the same as adding it once. -/
theorem addExcluded_idem (pl : String) (l : List String) :
    addExcluded pl (addExcluded pl l) = addExcluded pl l :=
  addExcluded_of_mem (mem_addExcluded_self pl l)

/-- Writing the same binding twice into the revision store is the same as
writing it once. -/
theorem setAssoc_idem (l : List (String × Option String)) (k : String) (v : Option String) :
    setAssoc (setAssoc l k v) k v = setAssoc l k v := by
  induction l with
  | nil => simp [setAssoc]
  | cons hd tl ih =>
    obtain ⟨a, b⟩ := hd
    by_cases h : a = k
    · simp [setAssoc, h]
    · simp [setAssoc, h, ih]

/-- A character list is a prefix of itself. -/
theorem listIsPrefixOf_self (l : List Char) : l.isPrefixOf l = true := by
  induction l with
  | nil => rfl
  | cons a t ih => simp [List.isPrefixOf, ih]

/-- Every path lies under itself. -/
theorem strUnder_self (x : String) : strUnder x x = true :=
  listIsPrefixOf_self x.data

/-- After removing the subtree rooted at p, the directory p is gone. -/
theorem not_mem_rmtree_dirs (fs : FS) (p : String) : p ∉ (rmtreeFS fs p).dirs := by
  intro h
  rw [rmtreeFS, List.mem_filter] at h
  simp [strUnder_self] at h
/-- The exclusion body does not touch the monitor. -/
theorem exclude_folder_state_monitor (p : String) (t : St) :
    (exclude_folder_state p t).monitor = t.monitor := by
  simp only [exclude_folder_state, client_set_local_rev]
  split <;> rfl

/-- The exclusion body adds the lower-cased path to the persisted excluded
list and changes nothing else in the configuration. -/
theorem exclude_folder_state_conf (p : String) (t : St) :
    (exclude_folder_state p t).conf =
      { t.conf with excluded_folders := addExcluded (pyLower p) t.conf.excluded_folders } := by
  simp only [exclude_folder_state, client_set_local_rev]
  split <;> rfl

/-- The exclusion body updates the client excluded copy and the revision
store and changes nothing else in the client. -/
theorem exclude_folder_state_client (p : String) (t : St) :
    (exclude_folder_state p t).client =
      { t.client with excluded_folders := addExcluded (pyLower p) t.conf.excluded_folders,
                      revs := setAssoc t.client.revs (pyLower p) none } := by
  simp only [exclude_folder_state, client_set_local_rev]
  split <;> rfl

/-- The exclusion body removes the local subtree exactly when it is a
directory. -/
theorem exclude_folder_state_fs (p : String) (t : St) :
    (exclude_folder_state p t).fs =
      if t.client.dropbox_path ++ (pyLower p) ∈ t.fs.dirs
      then rmtreeFS t.fs (t.client.dropbox_path ++ (pyLower p))
      else t.fs := by
  simp only [exclude_folder_state, client_set_local_rev, to_local_path]
  split <;> rfl

/-- Evaluation of the decorated exclude_folder: it always returns None, and
the successor state is the body state wrapped in the pause and resume of
with_sync_paused. -/
theorem exclude_folder_eq (p : String) (s : St) :
    exclude_folder p s = .ok (.noneV,
      if s.monitor.running = true
      then resume_sync (exclude_folder_state p (pause_sync (pushEvent s (.excludeCall p))))
      else exclude_folder_state p (pushEvent s (.excludeCall p))) := by
  unfold exclude_folder with_sync_paused exclude_folder_body syncing
  cases hr : s.monitor.running <;> simp [hr, pushEvent]
/-- Full characterization of one decorated exclude_folder call: the result is
always None and every state component is given in terms of the input state. -/
theorem exclude_folder_components (p : String) (s : St) :
    ∃ s1, exclude_folder p s = .ok (.noneV, s1) ∧
      s1.conf = { s.conf with
        excluded_folders := addExcluded (pyLower p) s.conf.excluded_folders } ∧
      s1.client = { s.client with
        excluded_folders := addExcluded (pyLower p) s.conf.excluded_folders,
        revs := setAssoc s.client.revs (pyLower p) none } ∧
      s1.fs = (if s.client.dropbox_path ++ (pyLower p) ∈ s.fs.dirs
               then rmtreeFS s.fs (s.client.dropbox_path ++ (pyLower p)) else s.fs) ∧
      s1.monitor = (if s.monitor.running = true
                    then { running := true, connected := s.monitor.connected,
                           stopped_by_user := false }
                    else s.monitor) := by
  refine ⟨_, exclude_folder_eq p s, ?_, ?_, ?_, ?_⟩ <;>
    cases hr : s.monitor.running <;>
      simp [hr, exclude_folder_state_conf, exclude_folder_state_client,
        exclude_folder_state_fs, exclude_folder_state_monitor, pause_sync, resume_sync,
        pushEvent]
/-- C8: excludeFolder is idempotent.  For every path p and state s, calling
the decorated exclude_folder twice returns None both times and leaves the
configuration, the client state (excluded list and revision markers), the
local filesystem and the monitor in the same state after the second call as
after the first; only the event trace records the second invocation. -/
theorem exclude_folder_idempotent (p : String) (s : St) :
    ∃ s1 s2, exclude_folder p s = .ok (.noneV, s1) ∧
      exclude_folder p s1 = .ok (.noneV, s2) ∧
      s2.conf = s1.conf ∧ s2.client = s1.client ∧ s2.fs = s1.fs ∧
      s2.monitor = s1.monitor := by
  obtain ⟨s1, h1, hc1, hcl1, hfs1, hm1⟩ := exclude_folder_components p s
  obtain ⟨s2, h2, hc2, hcl2, hfs2, hm2⟩ := exclude_folder_components p s1
  have hdp : s1.client.dropbox_path = s.client.dropbox_path := by rw [hcl1]
  have hex : s1.conf.excluded_folders = addExcluded (pyLower p) s.conf.excluded_folders := by
    rw [hc1]
  have hnotdir : s.client.dropbox_path ++ (pyLower p) ∉ s1.fs.dirs := by
    rw [hfs1]
    split
    · exact not_mem_rmtree_dirs _ _
    · assumption
  have hrun1 : s1.monitor.running = s.monitor.running := by
    rw [hm1]; cases hr : s.monitor.running <;> simp [hr]
  have hrevs : s1.client.revs = setAssoc s.client.revs (pyLower p) none := by rw [hcl1]
  refine ⟨s1, s2, h1, h2, ?_, ?_, ?_, ?_⟩
  · rw [hc2, hex, addExcluded_idem]
    rw [← hex]
  · rw [hcl2, hex, addExcluded_idem, hrevs, setAssoc_idem, hcl1]
  · rw [hfs2, hdp, if_neg hnotdir]
  · rw [hm2, hrun1, hm1]
    cases hr : s.monitor.running <;> simp [hr]
/-- C2 (amended): conservation law of the with_sync_paused wrapper.  For any
wrapped body that never changes the running signal itself, a normal return
restores the running signal to its value before the call (running stays
running, paused stays paused), while a raised exception always leaves sync
stopped: the wrapper has no finally clause, so a body that was entered with
sync running and then raises leaves sync paused. -/
theorem with_sync_paused_conservation (f : St → Except (Exn × St) (Res × St)) (s : St)
    (hf : ∀ t, (∀ r t', f t = .ok (r, t') → t'.monitor.running = t.monitor.running) ∧
               (∀ e t', f t = .error (e, t') → t'.monitor.running = t.monitor.running)) :
    (∀ r s', with_sync_paused f s = .ok (r, s') → s'.monitor.running = s.monitor.running) ∧
    (∀ e s', with_sync_paused f s = .error (e, s') → s'.monitor.running = false) := by
  unfold with_sync_paused syncing
  cases hr : s.monitor.running
  · simp only [Bool.false_eq_true, if_false]
    constructor
    · intro r s' h
      cases hcall : f s with
      | ok rs =>
        obtain ⟨r0, t'⟩ := rs
        rw [hcall] at h
        simp only [Except.ok.injEq, Prod.mk.injEq] at h
        obtain ⟨-, h2⟩ := h
        subst h2
        rw [(hf s).1 r0 t' hcall, hr]
      | error es => rw [hcall] at h; exact absurd h (by simp)
    · intro e s' h
      cases hcall : f s with
      | ok rs => obtain ⟨r0, t'⟩ := rs; rw [hcall] at h; exact absurd h (by simp)
      | error es =>
        obtain ⟨e0, t'⟩ := es
        rw [hcall] at h
        simp only [Except.error.injEq, Prod.mk.injEq] at h
        obtain ⟨-, h2⟩ := h
        subst h2
        rw [(hf s).2 e0 t' hcall, hr]
  · simp only [if_true]
    constructor
    · intro r s' h
      cases hcall : f (pause_sync s) with
      | ok rs =>
        obtain ⟨r0, t'⟩ := rs
        rw [hcall] at h
        simp only [Except.ok.injEq, Prod.mk.injEq] at h
        obtain ⟨-, h2⟩ := h
        subst h2
        exact resume_sync_running t'

      | error es => rw [hcall] at h; exact absurd h (by simp)
    · intro e s' h
      cases hcall : f (pause_sync s) with
      | ok rs => obtain ⟨r0, t'⟩ := rs; rw [hcall] at h; exact absurd h (by simp)
      | error es =>
        obtain ⟨e0, t'⟩ := es
        rw [hcall] at h
        simp only [Except.error.injEq, Prod.mk.injEq] at h
        obtain ⟨-, h2⟩ := h
        subst h2
        rw [(hf (pause_sync s)).2 e0 t' hcall, pause_sync_running]
/-- The exclusion body never raises and never changes the running signal. -/
theorem exclude_body_preserves_running (p : String) (t : St) :
    (∀ r t', exclude_folder_body p t = .ok (r, t') → t'.monitor.running = t.monitor.running) ∧
    (∀ e t', exclude_folder_body p t = .error (e, t') → t'.monitor.running = t.monitor.running) := by
  constructor
  · intro r t' h
    unfold exclude_folder_body at h
    simp only [Except.ok.injEq, Prod.mk.injEq] at h
    obtain ⟨-, h2⟩ := h
    subst h2
    rw [exclude_folder_state_monitor]
  · intro e t' h
    exact absurd h (by simp [exclude_folder_body])

/-- C2 (counterexample): the claim that a pause-wrapped operation leaves sync
running again on every exit path fails on exception unwind.  In state stC2
sync is running, yet set_dropbox_directory with a conflicting destination
raises and the state carried by the exception has the running signal off. -/
theorem pause_wrap_unwind_leaves_paused :
    stC2.monitor.running = true ∧
    (errState (set_dropbox_directory envNeutral (some "/new") stC2)).map
      (fun t => t.monitor.running) = some false := by decide

/-- Witness for with_sync_paused_conservation: at the running state stC2 with
the exclusion body for the path /q, the wrapper returns normally and the
running signal afterwards equals the one before. -/
theorem with_sync_paused_conservation_witness :
    stC2.monitor.running = true ∧
    okRunning (with_sync_paused (exclude_folder_body "/q") stC2) = some stC2.monitor.running := by
  refine ⟨rfl, ?_⟩
  have h := (with_sync_paused_conservation (exclude_folder_body "/q") stC2
    (fun t => exclude_body_preserves_running "/q" t)).1
  obtain ⟨s', he⟩ : ∃ s', with_sync_paused (exclude_folder_body "/q") stC2 =
      .ok (.noneV, s') := ⟨_, rfl⟩
  rw [okRunning, he]
  simp only [okState, Option.map_some]
  exact congrArg some (h Res.noneV s' he)
/-- C3 (counterexample): the claim that the pause-wrap is the outermost layer
of include_folder, so that sync resumes after a connectivity failure, fails
on the code.  In state s3c sync is running and /y is excluded; downloading /y
raises a transport exception, the guard converts it to False, and the running
signal is left off: the pause was not released. -/
theorem include_folder_order_cex :
    s3c.monitor.running = true ∧
    okRunning (include_folder env3 "/y" s3c) = some false := by decide

/-- C3 (amended): include_folder stacks if_connected outermost and
with_sync_paused innermost.  Consequently, when the connected signal is off
at entry no pause is ever taken and the running signal is unchanged, but
when the signal is on and the download of an excluded folder raises a
transport exception, the guard still returns False while the pause taken by
the inner wrapper is never released: sync is left stopped even if it was
running before the call. -/
theorem include_folder_guard_outside_pause (env : Env) (p : String) (s : St) :
    (s.monitor.connected = false →
      okRes (include_folder env p s) = some Res.falseV ∧
      okRunning (include_folder env p s) = some s.monitor.running) ∧
    (s.monitor.connected = true → (pyLower p) ∈ s.conf.excluded_folders →
      (pyLower p) ∈ env.downloadFails →
      okRes (include_folder env p s) = some Res.falseV ∧
      okRunning (include_folder env p s) = some false) := by
  constructor
  · intro hc
    unfold include_folder if_connected connected
    simp [hc, okRes, okRunning, okState]
  · intro hc hm hd
    unfold include_folder if_connected connected with_sync_paused include_folder_body
      client_get_remote_dropbox syncing
    cases hr : s.monitor.running <;>
      simp [hc, hr, hm, hd, okRes, okRunning, okState, pause_sync, pushEvent]
/-- Witness for include_folder_guard_outside_pause: in the concrete running
connected state s3c with the failing download of /y, the hypotheses hold and
the call returns False with the running signal left off. -/
theorem include_folder_guard_outside_pause_witness :
    s3c.monitor.connected = true ∧ pyLower "/y" ∈ s3c.conf.excluded_folders ∧
    pyLower "/y" ∈ env3.downloadFails ∧
    okRes (include_folder env3 "/y" s3c) = some Res.falseV ∧
    okRunning (include_folder env3 "/y" s3c) = some false := by
  refine ⟨rfl, by decide, by decide, ?_, ?_⟩
  · exact ((include_folder_guard_outside_pause env3 "/y" s3c).2 rfl (by decide) (by decide)).1
  · exact ((include_folder_guard_outside_pause env3 "/y" s3c).2 rfl (by decide) (by decide)).2

/-- C4 (counterexample): the claim that a transport failure leaves all
persisted configuration unchanged fails on include_folder.  In state s3c the
persisted excluded set is /y alone; downloading /y raises, the call returns
False, yet the persisted excluded set has already been emptied. -/
theorem include_folder_partial_update_cex :
    okRes (include_folder env3 "/y" s3c) = some Res.falseV ∧
    s3c.conf.excluded_folders = ["/y"] ∧
    okConfExcluded (include_folder env3 "/y" s3c) = some [] := by decide

/-- C4 (amended): when the connected signal is off at entry, the guarded
include_folder returns False and leaves the persisted excluded set
unchanged; the persisted cursor is never touched on any path.  But when a
transport failure strikes the download itself, the already persisted removal
of the folder from the excluded set survives the failed call. -/
theorem include_folder_failure_persists_removal (env : Env) (p : String) (s : St) :
    (s.monitor.connected = false →
      okRes (include_folder env p s) = some Res.falseV ∧
      okConfExcluded (include_folder env p s) = some s.conf.excluded_folders) ∧
    (s.monitor.connected = true → (pyLower p) ∈ s.conf.excluded_folders →
      (pyLower p) ∈ env.downloadFails →
      okRes (include_folder env p s) = some Res.falseV ∧
      okConfExcluded (include_folder env p s) =
        some (s.conf.excluded_folders.filter (fun x => normpath x != pyLower p))) ∧
    okCursor (include_folder env p s) = some s.conf.cursor := by
  refine ⟨?_, ?_, ?_⟩
  · intro hc
    unfold include_folder if_connected connected
    simp [hc, okRes, okConfExcluded, okState]
  · intro hc hm hd
    unfold include_folder if_connected connected with_sync_paused include_folder_body
      client_get_remote_dropbox syncing
    cases hr : s.monitor.running <;>
      simp [hc, hr, hm, hd, okRes, okConfExcluded, okState, pause_sync, pushEvent]
  · unfold include_folder if_connected connected with_sync_paused include_folder_body
      client_get_remote_dropbox syncing
    cases hc : s.monitor.connected
    · simp [hc, okCursor, okState]
    · cases hr : s.monitor.running <;>
        by_cases hm : (pyLower p) ∈ s.conf.excluded_folders <;>
          by_cases hd : (pyLower p) ∈ env.downloadFails <;>
            simp [hc, hr, hm, hd, okCursor, okState, pause_sync, pushEvent]

/-- Witness for include_folder_failure_persists_removal: the transport
failure branch at the concrete state s3c, where the persisted list loses /y
although the call fails. -/
theorem include_folder_failure_persists_removal_witness :
    s3c.monitor.connected = true ∧ pyLower "/y" ∈ s3c.conf.excluded_folders ∧
    pyLower "/y" ∈ env3.downloadFails ∧
    okConfExcluded (include_folder env3 "/y" s3c) =
      some (s3c.conf.excluded_folders.filter (fun x => normpath x != pyLower "/y")) := by
  refine ⟨rfl, by decide, by decide, ?_⟩
  exact ((include_folder_failure_persists_removal env3 "/y" s3c).2.1 rfl
    (by decide) (by decide)).2
/-- C5: the selection-diff scenario after first sync.  With old excluded set
/x, /y and newly chosen set /x, /z, select_excluded_folders persists exactly
the new set (in the client copy too), and the event trace shows that every
exclusion call precedes every inclusion call, that /y is downloaded, that the
local subtree of /z is deleted, and that /x is neither downloaded nor
deleted.  The theorem holds whether sync was running or paused. -/
theorem selection_diff_scenario (b : Bool) :
    okConfExcluded (select_excluded_folders false env5 (s5 b)) = some ["/x", "/z"] ∧
    okClientExcluded (select_excluded_folders false env5 (s5 b)) = some ["/x", "/z"] ∧
    okTrace (select_excluded_folders false env5 (s5 b)) =
      some [Event.listFolder, Event.excludeCall "/x", Event.setRev "/x" none,
            Event.excludeCall "/z", Event.rmtree "/db/z", Event.setRev "/z" none,
            Event.includeCall "/y", Event.downloadTree (some "/y")] ∧
    (okTrace (select_excluded_folders false env5 (s5 b))).map
      (fun t => decide (Event.downloadTree (some "/x") ∈ t)) = some false ∧
    (okTrace (select_excluded_folders false env5 (s5 b))).map
      (fun t => decide (Event.rmtree "/db/x" ∈ t)) = some false := by
  cases b <;> decide

/-- C6: with the connected signal off, any connectivity-guarded operation
prints the connectivity message, returns False, and never enters the wrapped
body: the whole effect is the single printed message, so in particular the
number of RemoteClient calls in the trace is unchanged. -/
theorem if_connected_offline (f : St → Except (Exn × St) (Res × St)) (s : St)
    (h : s.monitor.connected = false) :
    if_connected f s = .ok (.falseV, pushEvent s (.printMsg connErrMsg)) ∧
    clientCalls (pushEvent s (.printMsg connErrMsg)).trace = clientCalls s.trace := by
  constructor
  · unfold if_connected connected
    simp [h]
  · simp [clientCalls, List.countP_append, List.countP_cons, List.countP_nil]

/-- Witness for if_connected_offline: the disconnected state stOff with the
full-download body. -/
theorem if_connected_offline_witness :
    stOff.monitor.connected = false ∧
    if_connected (get_remote_dropbox_body envNeutral) stOff =
      .ok (.falseV, pushEvent stOff (.printMsg connErrMsg)) := by
  refine ⟨rfl, ?_⟩
  exact (if_connected_offline (get_remote_dropbox_body envNeutral) stOff rfl).1

/-- C7: no-op inclusion.  When the lower-cased path is not in the persisted
excluded set, include_folder changes neither the persisted excluded set nor
the client copy and performs no download call, whatever the connectivity and
running signals are. -/
theorem include_folder_noop (env : Env) (p : String) (s : St)
    (h : pyLower p ∉ s.conf.excluded_folders) :
    okConfExcluded (include_folder env p s) = some s.conf.excluded_folders ∧
    okClientExcluded (include_folder env p s) = some s.client.excluded_folders ∧
    (okState (include_folder env p s)).map (fun t => downloadCalls t.trace) =
      some (downloadCalls s.trace) := by
  unfold include_folder if_connected connected with_sync_paused include_folder_body syncing
  cases hc : s.monitor.connected
  · simp [hc, okConfExcluded, okClientExcluded, okState, downloadCalls,
      List.countP_append, List.countP_cons, List.countP_nil]
  · cases hr : s.monitor.running <;>
      simp [hc, hr, h, okConfExcluded, okClientExcluded, okState, downloadCalls,
        pause_sync, List.countP_append, List.countP_cons, List.countP_nil]

/-- Witness for include_folder_noop: including /w, which is not excluded in
s3c, leaves the excluded sets untouched. -/
theorem include_folder_noop_witness :
    pyLower "/w" ∉ s3c.conf.excluded_folders ∧
    okConfExcluded (include_folder env3 "/w" s3c) = some s3c.conf.excluded_folders ∧
    okClientExcluded (include_folder env3 "/w" s3c) = some s3c.client.excluded_folders := by
  refine ⟨by decide, ?_, ?_⟩
  · exact (include_folder_noop env3 "/w" s3c (by decide)).1
  · exact (include_folder_noop env3 "/w" s3c (by decide)).2.1

/-- C9: the connectivity-guarded full download never returns a truthy value.
It returns None exactly when the connected signal is on and the download
succeeds, and False exactly on connectivity failure (signal off, or transport
exception); both are falsy, so no caller can distinguish success by
truthiness. -/
theorem get_remote_dropbox_never_truthy (env : Env) (s : St) :
    okRes (get_remote_dropbox env s) =
      some (if s.monitor.connected = false ∨ env.downloadAllFails = true
            then Res.falseV else Res.noneV) ∧
    (okRes (get_remote_dropbox env s)).map truthy = some false := by
  unfold get_remote_dropbox if_connected get_remote_dropbox_body client_get_remote_dropbox
    connected
  cases hc : s.monitor.connected <;> cases hd : env.downloadAllFails <;>
    simp [hc, hd, okRes, truthy]
/-- C10: relocation onto an existing destination when the old directory is
missing.  set_dropbox_directory reaches os.makedirs, which raises because
something already exists at the new path; the exception propagates and the
state it carries still has the old persisted main.path and the old client
root path: nothing was adopted or overwritten. -/
theorem set_dropbox_directory_existing_dest (env : Env) (newPath : String) (s : St)
    (h1 : s.conf.path ∉ s.fs.dirs) (h2 : s.conf.path ∉ s.fs.files)
    (h3 : pexists s newPath) :
    errExnOf (set_dropbox_directory env (some newPath) s) = some Exn.fileExistsErr ∧
    (errState (set_dropbox_directory env (some newPath) s)).map (fun t => t.conf.path) =
      some s.conf.path ∧
    (errState (set_dropbox_directory env (some newPath) s)).map
      (fun t => t.client.dropbox_path) = some s.client.dropbox_path := by
  have hnex : ¬ pexists s s.conf.path := by
    intro h
    cases h with
    | inl h => exact h1 h
    | inr h => exact h2 h
  unfold set_dropbox_directory with_sync_paused set_dropbox_directory_body moveOrCreate
    syncing pexists
  unfold pexists at hnex h3
  cases hr : s.monitor.running <;>
    simp [hr, pause_sync, h1, h2, h3, errExnOf, errState, hnex]

/-- Witness for set_dropbox_directory_existing_dest: state stC2, whose old
directory /old does not exist while a file sits at /new; the call raises and
main.path is still /old. -/
theorem set_dropbox_directory_existing_dest_witness :
    stC2.conf.path ∉ stC2.fs.dirs ∧ stC2.conf.path ∉ stC2.fs.files ∧
    pexists stC2 "/new" ∧
    errExnOf (set_dropbox_directory envNeutral (some "/new") stC2) =
      some Exn.fileExistsErr ∧
    (errState (set_dropbox_directory envNeutral (some "/new") stC2)).map
      (fun t => t.conf.path) = some stC2.conf.path := by
  refine ⟨by decide, by decide, by decide, ?_, ?_⟩
  · exact (set_dropbox_directory_existing_dest envNeutral "/new" stC2
      (by decide) (by decide) (by decide)).1
  · exact (set_dropbox_directory_existing_dest envNeutral "/new" stC2
      (by decide) (by decide) (by decide)).2.1

/-- C1 (code bug): bootstrap with lastsync None.  Constructing the controller
from s0Init performs directory selection (main.path becomes /new), folder
selection (the listing call appears in the trace and the chosen set /a is
persisted), resets the cursor to the empty string, and runs the full
download, which succeeds (the downloadTree call appears in the trace and the
constructor returns normally).  Yet lastsync is still None afterwards: the
wrapped download body returns None, so the success test in the constructor
never fires, contradicting the claim that a successful full download sets
lastsync to a non-null timestamp. -/
theorem first_sync_success_leaves_lastsync_none :
    (initStateOf (sdbx_init envInit true s0Init)).map (fun t => t.conf.lastsync) =
      some none ∧
    (initStateOf (sdbx_init envInit true s0Init)).map (fun t => t.conf.cursor) = some "" ∧
    (initStateOf (sdbx_init envInit true s0Init)).map (fun t => t.conf.path) = some "/new" ∧
    (initStateOf (sdbx_init envInit true s0Init)).map (fun t => t.conf.excluded_folders) =
      some ["/a"] ∧
    (initStateOf (sdbx_init envInit true s0Init)).map
      (fun t => decide (Event.listFolder ∈ t.trace)) = some true ∧
    (initStateOf (sdbx_init envInit true s0Init)).map
      (fun t => decide (Event.downloadTree none ∈ t.trace)) = some true := by
  decide
